import Mathlib

/-!
Shallow embedding of the SageMaker training component
(`src/components/aws/sagemaker/train/src/sagemaker_training_component.py`)
and proofs about its request builder, status classifier, output extractor
and job-name assignment.

Python optional inputs are modelled as `Option` values (`none` = key absent
or Python `None`); Python truthiness is made explicit by the `truthy*`
helpers.  External collaborators that the file only calls (the request
template, `built_in_algos`, `get_image_uri`, `_create_hyperparameters`)
are passed in as parameters, mirroring how the code receives them from
outside.
-/

/-- Python truthiness of an optional string: absent, `None` and `""` are falsy. -/
def truthyStr : Option String → Bool
  | none => false
  | some s => !(s == "")

/-- Python truthiness of an optional integer: absent, `None` and `0` are falsy. -/
def truthyInt : Option Int → Bool
  | none => false
  | some n => !(n == 0)

/-- Python truthiness of an optional list/dict: absent, `None` and empty are falsy. -/
def truthyList {α : Type} : Option (List α) → Bool
  | none => false
  | some l => !l.isEmpty

/-- Python truthiness of an optional boolean. -/
def truthyBool : Option Bool → Bool
  | none => false
  | some b => b

/-- An input channel of `InputDataConfig`; the builder copies channels
verbatim and only ever takes their length, so the payload is opaque. -/
abbrev Channel := String

/-- The `inputs` mapping of `SageMakerTrainingSpec`.  Every key the
component reads with `spec.inputs.get(...)` is a field; `none` models an
absent key or a `None` value. -/
structure TrainingInputs where
  job_name : Option String := none
  role : Option String := none
  hyperparameters : Option (List (String × String)) := none
  training_input_mode : Option String := none
  image : Option String := none
  algorithm_name : Option String := none
  region : Option String := none
  metric_definitions : Option (List (String × String)) := none
  vpc_security_group_ids : Option String := none
  vpc_subnets : Option String := none
  channels : Option (List Channel) := none
  model_artifact_path : Option String := none
  output_encryption_key : Option String := none
  instance_type : Option String := none
  resource_encryption_key : Option String := none
  network_isolation : Option Bool := none
  traffic_encryption : Option Bool := none
  instance_count : Option Int := none
  volume_size : Option Int := none
  max_run_time : Option Int := none
  spot_instance : Option Bool := none
  max_wait_time : Option Int := none
  checkpoint_config : Option (List (String × String)) := none
  tags : Option (List (String × String)) := none
deriving Repr, DecidableEq

/-- One entry of `AlgorithmSpecification.MetricDefinitions`. -/
structure MetricDefinition where
  name : String
  regex : String
deriving Repr, DecidableEq

/-- The request's `VpcConfig` block. -/
structure VpcConfig where
  securityGroupIds : List String
  subnets : List String
deriving Repr, DecidableEq

/-- The request's `AlgorithmSpecification` block.  `trainingImage`,
`algorithmName` and `metricDefinitions` are keys the code pops, so `none`
means the key is absent from the dict; `trainingInputMode` is always kept
and `none` there is a `null` value. -/
structure AlgorithmSpecification where
  trainingImage : Option String := none
  algorithmName : Option String := none
  trainingInputMode : Option String := none
  metricDefinitions : Option (List MetricDefinition) := none
deriving Repr, DecidableEq

/-- The request's `OutputDataConfig` block.  Both keys always stay in the
dict; `kmsKeyId`'s outer `Option` records key presence (the code never
pops it) and the inner one a `null` value. -/
structure OutputDataConfig where
  s3OutputPath : Option String := none
  kmsKeyId : Option (Option String) := none
deriving Repr, DecidableEq

/-- The request's `ResourceConfig` block.  `volumeKmsKeyId`'s outer
`Option` records key presence, the inner one a `null` value. -/
structure ResourceConfig where
  instanceType : Option String := none
  instanceCount : Int := 1
  volumeSizeInGB : Int := 1
  volumeKmsKeyId : Option (Option String) := none
deriving Repr, DecidableEq

/-- The request's `StoppingCondition` block. -/
structure StoppingCondition where
  maxRuntimeInSeconds : Int := 86400
  maxWaitTimeInSeconds : Option Int := none
deriving Repr, DecidableEq

/-- The wire-level training-job creation request (and the template it
starts from, obtained externally via `_get_request_template("train")`).
Keys the code can pop are `Option`s with `none` = key absent. -/
structure TrainRequest where
  trainingJobName : String := ""
  roleArn : Option String := none
  hyperParameters : List (String × String) := []
  algorithmSpecification : AlgorithmSpecification := {}
  vpcConfig : Option VpcConfig := none
  inputDataConfig : List Channel := []
  outputDataConfig : OutputDataConfig := {}
  resourceConfig : ResourceConfig := {}
  stoppingCondition : StoppingCondition := {}
  enableNetworkIsolation : Option Bool := none
  enableInterContainerTrafficEncryption : Option Bool := none
  enableManagedSpotTraining : Option Bool := none
  checkpointConfig : Option (List (String × String)) := none
  tags : Option (List (String × String)) := none
deriving Repr, DecidableEq

/-- Levels of the `logging` calls the component makes. -/
inductive LogLevel where
  | error
  | warning
  | info
deriving Repr, DecidableEq

/-- One emitted log record. -/
structure LogEvent where
  level : LogLevel
  msg : String
deriving Repr, DecidableEq

/-- How `_create_job_request` can fail: `exception` models
`raise Exception(msg)`, `typeError` models the `TypeError` Python raises
when `len` is applied to `None`. -/
inductive BuildError where
  | exception (msg : String)
  | typeError (msg : String)
deriving Repr, DecidableEq

/-- The remote `describe_training_job` response, restricted to the keys
the component reads.  `trainingImage = none` models the `"TrainingImage"`
key being absent from the response's `AlgorithmSpecification`. -/
structure TrainingJobDescription where
  trainingJobStatus : String := ""
  failureReason : String := ""
  s3ModelArtifacts : String := ""
  trainingImage : Option String := none
  algorithmName : String := ""
deriving Repr, DecidableEq

/-- The `SageMakerJobStatus` value returned by `_get_job_status`; the
Python constructor defaults `has_error` to `False` and `error_message`
to `None`. -/
structure SageMakerJobStatus where
  is_completed : Bool
  has_error : Bool := false
  error_message : Option String := none
deriving Repr, DecidableEq

/-- `SageMakerTrainingComponent._get_job_status`: classify the remote
description into completed / failed-with-reason / running. -/
def _get_job_status (response : TrainingJobDescription) : SageMakerJobStatus :=
  if response.trainingJobStatus == "Completed" then
    { is_completed := true, has_error := false }
  else if response.trainingJobStatus == "Failed" then
    { is_completed := true, has_error := true,
      error_message := some response.failureReason }
  else
    { is_completed := false }

/-- Modelled from the spec: `_enable_spot_instance_support` lives in
`common/sagemaker_component.py`, which is not under `src/`.  Per the spec,
when spot training is requested it adds the managed-spot flag and the
checkpoint configuration and requires a maximum wait time in the stopping
condition (missing wait time is a validation error); when not requested,
the spot blocks are omitted from the request.  It touches no other field. -/
def _enable_spot_instance_support (request : TrainRequest)
    (spec : TrainingInputs) : Except BuildError TrainRequest :=
  if truthyBool spec.spot_instance then
    match spec.max_wait_time with
    | some w =>
        .ok { request with
              enableManagedSpotTraining := some true,
              checkpointConfig := spec.checkpoint_config,
              stoppingCondition :=
                { request.stoppingCondition with maxWaitTimeInSeconds := some w } }
    | none => .error (.exception "Could not create job request")
  else
    .ok { request with enableManagedSpotTraining := none, checkpointConfig := none }

/-- Opening lines of `_create_job_request`: copy the template and fill
`TrainingJobName`, `RoleArn`, `HyperParameters` and `TrainingInputMode`. -/
def initRequestStep (template : TrainRequest)
    (createHyperparameters : Option (List (String × String)) → List (String × String))
    (training_job_name : String) (spec : TrainingInputs) : TrainRequest :=
  { template with
    trainingJobName := training_job_name,
    roleArn := spec.role,
    hyperParameters := createHyperparameters spec.hyperparameters,
    algorithmSpecification :=
      { template.algorithmSpecification with
        trainingInputMode := spec.training_input_mode } }

/-- Python str.lower as the code applies it to ASCII algorithm names:
lower-case every character (written structurally over the character list
so that concrete instances evaluate). -/
def pyLower (s : String) : String := ⟨s.data.map Char.toLower⟩

/-- Python str.strip: remove whitespace from both ends of the string
(written structurally over the character list). -/
def pyStrip (s : String) : String :=
  ⟨((s.data.dropWhile Char.isWhitespace).reverse.dropWhile
      Char.isWhitespace).reverse⟩

/-- The "Update training image (for BYOC and built-in algorithms) or
algorithm resource name" section of `_create_job_request`, reached only
after the neither-given check raised.  Returns the emitted log records
and the updated request. -/
def algorithmSelectionStep (built_in_algos : List (String × String))
    (get_image_uri : Option String → String → String)
    (spec : TrainingInputs) (r0 : TrainRequest) :
    List LogEvent × TrainRequest :=
  if truthyStr spec.image then
    ([], { r0 with algorithmSpecification :=
             { r0.algorithmSpecification with
               trainingImage := spec.image, algorithmName := none } })
  else
    let algo_name := pyStrip (pyLower (spec.algorithm_name.getD ""))
    match built_in_algos.find? (fun kv => kv.1 == algo_name) with
    | some kv =>
        ([⟨.warning, "Algorithm name is found as an Amazon built-in algorithm. Using built-in algorithm."⟩],
         { r0 with algorithmSpecification :=
             { r0.algorithmSpecification with
               trainingImage := some (get_image_uri spec.region kv.2),
               algorithmName := none } })
    | none =>
        if built_in_algos.any (fun kv => kv.2 == algo_name) then
          ([⟨.warning, "Algorithm name is found as an Amazon built-in algorithm. Using built-in algorithm."⟩],
           { r0 with algorithmSpecification :=
               { r0.algorithmSpecification with
                 trainingImage := some (get_image_uri spec.region algo_name),
                 algorithmName := none } })
        else
          ([], { r0 with algorithmSpecification :=
                   { r0.algorithmSpecification with
                     algorithmName := spec.algorithm_name,
                     trainingImage := none } })

/-- The "Update metric definitions" section of `_create_job_request`:
append the caller's metric definitions to the template's list, or pop the
key when the input is falsy. -/
def metricDefinitionsStep (spec : TrainingInputs) (r : TrainRequest) :
    TrainRequest :=
  if truthyList spec.metric_definitions then
    { r with algorithmSpecification :=
        { r.algorithmSpecification with
          metricDefinitions :=
            some ((r.algorithmSpecification.metricDefinitions.getD []) ++
              (spec.metric_definitions.getD []).map
                (fun kv => { name := kv.1, regex := kv.2 })) } }
  else
    { r with algorithmSpecification :=
        { r.algorithmSpecification with metricDefinitions := none } }

/-- The "Update or pop VPC configs" section of `_create_job_request`:
fill both VPC sub-fields (splitting the comma-separated inputs) when both
are truthy, otherwise pop the whole `VpcConfig` block. -/
def vpcConfigStep (spec : TrainingInputs) (r : TrainRequest) : TrainRequest :=
  if truthyStr spec.vpc_security_group_ids && truthyStr spec.vpc_subnets then
    { r with vpcConfig :=
        (some ⟨(spec.vpc_security_group_ids.getD "").splitOn ",",
               (spec.vpc_subnets.getD "").splitOn ","⟩) }
  else
    { r with vpcConfig := none }

/-- The always-assigned fields of `_create_job_request` after the channel
check: `InputDataConfig` and the output/resource/flag assignments of
lines 149-162 of the source. -/
def staticFieldsStep (spec : TrainingInputs) (chans : List Channel)
    (r : TrainRequest) : TrainRequest :=
  { r with
    inputDataConfig := chans,
    outputDataConfig :=
      { s3OutputPath := spec.model_artifact_path,
        kmsKeyId := some spec.output_encryption_key },
    resourceConfig :=
      { r.resourceConfig with
        instanceType := spec.instance_type,
        volumeKmsKeyId := some spec.resource_encryption_key },
    enableNetworkIsolation := spec.network_isolation,
    enableInterContainerTrafficEncryption := spec.traffic_encryption }

/-- The "Update InstanceCount, VolumeSizeInGB, and MaxRuntimeInSeconds if
input is non-empty and > 0, otherwise use default values" section of
`_create_job_request`. -/
def numericOverridesStep (spec : TrainingInputs) (r : TrainRequest) :
    TrainRequest :=
  let count : Int :=
    if truthyInt spec.instance_count then spec.instance_count.getD 0
    else r.resourceConfig.instanceCount
  let volume : Int :=
    if truthyInt spec.volume_size then spec.volume_size.getD 0
    else r.resourceConfig.volumeSizeInGB
  let runtime : Int :=
    if truthyInt spec.max_run_time then spec.max_run_time.getD 0
    else r.stoppingCondition.maxRuntimeInSeconds
  { r with
    resourceConfig :=
      { r.resourceConfig with instanceCount := count, volumeSizeInGB := volume },
    stoppingCondition :=
      { r.stoppingCondition with maxRuntimeInSeconds := runtime } }

/-- The closing tag loop of `_create_job_request`: append each caller tag
to the request's `Tags` list (`spec.inputs.get("tags", {})` defaults to an
empty dict, whose loop leaves the request untouched). -/
def tagsStep (spec : TrainingInputs) (r : TrainRequest) : TrainRequest :=
  let ts := spec.tags.getD []
  if ts.isEmpty then r
  else { r with tags := some ((r.tags.getD []) ++ ts) }

/-- `SageMakerTrainingComponent._create_job_request`, written as a pure
function chaining the steps above in source order.  External
collaborators are parameters: `template` is the dict returned by
`_get_request_template("train")` (assumed, like the real template, to
carry every key the code pops or appends to), `createHyperparameters` is
the `_create_hyperparameters` helper, `built_in_algos` is the injected
built-in algorithm catalog (a dict, so keys are unique) and
`get_image_uri` resolves a region and a built-in algorithm identifier to
an image.  Returns the emitted log records together with either the built
request or the raised error. -/
def _create_job_request (template : TrainRequest)
    (createHyperparameters : Option (List (String × String)) → List (String × String))
    (built_in_algos : List (String × String))
    (get_image_uri : Option String → String → String)
    (training_job_name : String)
    (spec : TrainingInputs) :
    List LogEvent × Except BuildError TrainRequest :=
  let r0 := initRequestStep template createHyperparameters training_job_name spec
  if !truthyStr spec.image && !truthyStr spec.algorithm_name then
    ([⟨.error, "Please specify training image or algorithm name."⟩],
     .error (.exception "Could not create job request"))
  else
    let logs1 : List LogEvent :=
      if truthyStr spec.image && truthyStr spec.algorithm_name then
        [⟨.error, "Both image and algorithm name inputted, only one should be specified. Proceeding with image."⟩]
      else []
    let step1 := algorithmSelectionStep built_in_algos get_image_uri spec r0
    let logs2 := logs1 ++ step1.1
    let r4 := vpcConfigStep spec (metricDefinitionsStep spec step1.2)
    match spec.channels with
    | none =>
        (logs2, .error (.typeError "object of type NoneType has no len()"))
    | some chans =>
      if chans.length > 0 then
        let r6 := numericOverridesStep spec (staticFieldsStep spec chans r4)
        match _enable_spot_instance_support r6 spec with
        | .error e => (logs2, .error e)
        | .ok r7 => (logs2, .ok (tagsStep spec r7))
      else
        (logs2 ++ [⟨.error, "Must specify at least one input channel."⟩],
         .error (.exception "Could not create job request"))

/-- Modelled from the spec: `SageMakerComponent._generate_unique_timestamped_id`
lives in `common/sagemaker_component.py`, which is not under `src/`.  Per
the spec, a job name is "generated as `<prefix>-<timestamp>` to guarantee
uniqueness across repeated invocations"; the timestamp is the
`strftime`-rendered clock reading at generation time. -/
def _generate_unique_timestamped_id (pre : String) (timestamp : String) : String :=
  pre ++ "-" ++ timestamp

/-- The assignment of `self._training_job_name` at the top of
`SageMakerTrainingComponent.Do`: the caller's `job_name` input when
truthy, otherwise a generated `TrainingJob-<timestamp>` identifier. -/
def assignTrainingJobName (job_name_input : Option String) (timestamp : String) : String :=
  if truthyStr job_name_input then job_name_input.getD ""
  else _generate_unique_timestamped_id "TrainingJob" timestamp

/-- The request-construction part of one run: `Do` assigns
`self._training_job_name` once from the spec and the clock, then the base
class calls `_create_job_request` with that identity. -/
def buildForRun (template : TrainRequest)
    (createHyperparameters : Option (List (String × String)) → List (String × String))
    (built_in_algos : List (String × String))
    (get_image_uri : Option String → String → String)
    (spec : TrainingInputs) (timestamp : String) :
    List LogEvent × Except BuildError TrainRequest :=
  _create_job_request template createHyperparameters built_in_algos get_image_uri
    (assignTrainingJobName spec.job_name timestamp) spec

/-- Modelled from the spec: the base orchestrator (`SageMakerComponent.Do`
in `common/sagemaker_component.py`, not under `src/`) submits the built
request only when request construction succeeds; a raised error aborts the
run before any submit call.  The result lists the submit calls of the run. -/
def submitCallsOfRun (template : TrainRequest)
    (createHyperparameters : Option (List (String × String)) → List (String × String))
    (built_in_algos : List (String × String))
    (get_image_uri : Option String → String → String)
    (spec : TrainingInputs) (timestamp : String) : List TrainRequest :=
  match (buildForRun template createHyperparameters built_in_algos get_image_uri
      spec timestamp).2 with
  | .ok r => [r]
  | .error _ => []

/-- The module-level environment of the Python file: `_on_job_terminated`
and `_print_logs_for_job` reference the free variable `job_name`, which is
resolved against module globals, not against `self`.  The module as
written defines no such global, so `none` — a `NameError` at use — models
the file as it stands. -/
structure ModuleGlobals where
  job_name : Option String := none
deriving Repr, DecidableEq

/-- Result of a Python statement that may raise `NameError`. -/
inductive PyResult (α : Type) where
  | ok (val : α)
  | nameError (missing : String)
deriving Repr, DecidableEq

/-- A remote side-effecting call issued by the component. -/
inductive RemoteCall where
  | stopTrainingJob (trainingJobName : String)
  | printCloudwatchLogs (logGroup : String) (streamName : String)
deriving Repr, DecidableEq

/-- `SageMakerTrainingComponent._on_job_terminated`: issues
`stop_training_job(TrainingJobName=job_name)` with the module-level
`job_name`; `self._training_job_name` (passed here so the divergence can
be stated) is not consulted. -/
def _on_job_terminated (globals : ModuleGlobals)
    (selfTrainingJobName : String) : PyResult RemoteCall :=
  match globals.job_name with
  | some n => .ok (.stopTrainingJob n)
  | none => .nameError "job_name"

/-- `SageMakerTrainingComponent._print_logs_for_job`: fetches logs for the
stream named by the module-level `job_name`, not by
`self._training_job_name`. -/
def _print_logs_for_job (globals : ModuleGlobals)
    (selfTrainingJobName : String) : PyResult RemoteCall :=
  match globals.job_name with
  | some n => .ok (.printCloudwatchLogs "/aws/sagemaker/TrainingJobs" n)
  | none => .nameError "job_name"

/-- `SageMakerTrainingComponent._get_model_artifacts_from_job`: describe
the job and read `ModelArtifacts.S3ModelArtifacts`.  The remote client is
the function `describe_training_job`. -/
def _get_model_artifacts_from_job
    (describe_training_job : String → TrainingJobDescription)
    (training_job_name : String) : String :=
  (describe_training_job training_job_name).s3ModelArtifacts

/-- `SageMakerTrainingComponent._get_image_from_job`: describe the job;
if its `AlgorithmSpecification` carries a `TrainingImage`, use it,
otherwise resolve the job's `AlgorithmName` through `describe_algorithm`
(modelled as returning `TrainingSpecification.TrainingImage`). -/
def _get_image_from_job
    (describe_training_job : String → TrainingJobDescription)
    (describe_algorithm : String → String)
    (training_job_name : String) : String :=
  let info := describe_training_job training_job_name
  match info.trainingImage with
  | some image => image
  | none => describe_algorithm info.algorithmName

/-- Assignment `d[k] = v` on a Python dict modelled as an association
list whose keys are unique. -/
def dictSet (d : List (String × String)) (k v : String) :
    List (String × String) :=
  if d.any (fun kv => kv.1 == k) then
    d.map (fun kv => if kv.1 == k then (k, v) else kv)
  else d ++ [(k, v)]

/-- `SageMakerTrainingComponent._after_job_complete`: populate
`spec.outputs` with the run's job name, the model artifact URL and the
resolved training image. -/
def _after_job_complete
    (describe_training_job : String → TrainingJobDescription)
    (describe_algorithm : String → String)
    (training_job_name : String)
    (outputs : List (String × String)) : List (String × String) :=
  dictSet
    (dictSet
      (dictSet outputs "job_name" training_job_name)
      "model_artifact_url"
      (_get_model_artifacts_from_job describe_training_job training_job_name))
    "training_image"
    (_get_image_from_job describe_training_job describe_algorithm training_job_name)

/-- A concrete instantiation of the request template, shaped like the
real `train` template (every key the code pops or appends to is present). -/
def sampleTemplate : TrainRequest :=
  { trainingJobName := "",
    roleArn := some "",
    hyperParameters := [],
    algorithmSpecification :=
      { trainingImage := some "", algorithmName := some "",
        trainingInputMode := some "File", metricDefinitions := some [] },
    vpcConfig := some ⟨[], []⟩,
    inputDataConfig := [],
    outputDataConfig := { s3OutputPath := some "", kmsKeyId := some (some "") },
    resourceConfig :=
      { instanceType := some "ml.m4.xlarge", instanceCount := 1,
        volumeSizeInGB := 30, volumeKmsKeyId := some (some "") },
    stoppingCondition := { maxRuntimeInSeconds := 86400 },
    enableNetworkIsolation := some false,
    enableInterContainerTrafficEncryption := some false,
    enableManagedSpotTraining := some false,
    checkpointConfig := some [],
    tags := some [] }

/-- A concrete fragment of the built-in algorithm catalog (name and
canonical service identifier, both in canonical lower-case form). -/
def sampleCatalog : List (String × String) :=
  [("xgboost", "xgboost"), ("deepar forecasting", "forecasting-deepar")]

/-- A concrete resolver standing in for the external `get_image_uri`. -/
def sampleGetImageUri (region : Option String) (algo : String) : String :=
  (region.getD "") ++ ".dkr.ecr.amazonaws.com/" ++ algo

/-- A concrete stand-in for the external `_create_hyperparameters`. -/
def sampleHyperparameters (h : Option (List (String × String))) :
    List (String × String) := h.getD []

/-- Inputs supplying both an image and an algorithm name. -/
def specBoth : TrainingInputs :=
  { image := some "my-image", algorithm_name := some "xgboost",
    region := some "us-east-1", channels := some ["train-channel"] }

/-- Inputs supplying neither image nor algorithm name (and no channels). -/
def specNeither : TrainingInputs := {}

/-- Inputs whose channels key holds an empty list. -/
def specEmptyChannels : TrainingInputs :=
  { image := some "my-image", channels := some [] }

/-- Minimal valid inputs: an image and one channel, everything else absent. -/
def specImageOk : TrainingInputs :=
  { image := some "my-image", channels := some ["train-channel"] }

/-- Inputs supplying only an algorithm name that normalizes to a catalog key. -/
def specAlgoOk : TrainingInputs :=
  { algorithm_name := some "  XGBoost ", region := some "us-east-1",
    channels := some ["train-channel"] }

/-- Valid inputs with a non-zero instance count, an absent volume size and
a zero max runtime. -/
def specNumeric : TrainingInputs :=
  { image := some "my-image", channels := some ["train-channel"],
    instance_count := some 3, max_run_time := some 0 }

/-- Valid inputs with an explicit job name. -/
def specNamed : TrainingInputs :=
  { job_name := some "my-training-job", image := some "my-image",
    channels := some ["train-channel"] }

/-- Inputs with an image but no channels key at all. -/
def specNoChannels : TrainingInputs := { image := some "my-image" }

/-- Whether a build result is the Python `TypeError` failure mode. -/
def isTypeErrorResult : Except BuildError TrainRequest → Bool
  | .error (.typeError _) => true
  | _ => false


theorem build_ok_decomp (template : TrainRequest)
    (chp : Option (List (String × String)) → List (String × String))
    (algos : List (String × String))
    (giu : Option String → String → String)
    (name : String) (spec : TrainingInputs) (r : TrainRequest)
    (h : (_create_job_request template chp algos giu name spec).2 = .ok r) :
    (truthyStr spec.image || truthyStr spec.algorithm_name) = true ∧
    ∃ chans r7, spec.channels = some chans ∧ 0 < chans.length ∧
      _enable_spot_instance_support
        (numericOverridesStep spec (staticFieldsStep spec chans
          (vpcConfigStep spec (metricDefinitionsStep spec
            (algorithmSelectionStep algos giu spec
              (initRequestStep template chp name spec)).2)))) spec = .ok r7 ∧
      r = tagsStep spec r7 := by
  unfold _create_job_request at h
  by_cases h1 : (!truthyStr spec.image && !truthyStr spec.algorithm_name) = true
  · simp only [h1, if_true] at h
    exact Except.noConfusion h
  · constructor
    · revert h1
      cases truthyStr spec.image <;> cases truthyStr spec.algorithm_name <;> simp
    · simp only [h1, if_false, Bool.not_eq_true] at h
      cases hc : spec.channels with
      | none => simp only [hc] at h; exact Except.noConfusion h
      | some chans =>
        simp only [hc] at h
        by_cases hlen : chans.length > 0
        · simp only [hlen, if_true] at h
          cases hs : _enable_spot_instance_support
            (numericOverridesStep spec (staticFieldsStep spec chans
              (vpcConfigStep spec (metricDefinitionsStep spec
                (algorithmSelectionStep algos giu spec
                  (initRequestStep template chp name spec)).2)))) spec with
          | error e => simp only [hs] at h; exact Except.noConfusion h
          | ok r7 =>
            simp only [hs] at h
            exact ⟨chans, r7, rfl, hlen, hs, (Except.ok.inj h).symm⟩
        · simp only [hlen, if_false] at h; exact Except.noConfusion h

theorem algorithmSelectionStep_shape (A : List (String × String))
    (g : Option String → String → String) (spec : TrainingInputs) (r : TrainRequest) :
    ∃ lg ti an, algorithmSelectionStep A g spec r =
      (lg, { r with algorithmSpecification :=
        { r.algorithmSpecification with trainingImage := ti, algorithmName := an } }) := by
  unfold algorithmSelectionStep
  by_cases hi : truthyStr spec.image = true
  · rw [if_pos hi]; exact ⟨_, _, _, rfl⟩
  · rw [if_neg hi]
    cases hf : List.find? (fun kv => kv.1 == pyStrip (pyLower (spec.algorithm_name.getD ""))) A with
    | some kv => simp only [hf]; exact ⟨_, _, _, rfl⟩
    | none =>
      simp only [hf]
      by_cases ha : (A.any fun kv => kv.2 == pyStrip (pyLower (spec.algorithm_name.getD ""))) = true
      · rw [if_pos ha]; exact ⟨_, _, _, rfl⟩
      · rw [if_neg ha]; exact ⟨_, _, _, rfl⟩

theorem algorithmSelectionStep_frame (A : List (String × String))
    (g : Option String → String → String) (spec : TrainingInputs) (r : TrainRequest) :
    ((algorithmSelectionStep A g spec r).2.trainingJobName = r.trainingJobName ∧
     (algorithmSelectionStep A g spec r).2.vpcConfig = r.vpcConfig ∧
     (algorithmSelectionStep A g spec r).2.outputDataConfig = r.outputDataConfig ∧
     (algorithmSelectionStep A g spec r).2.resourceConfig = r.resourceConfig ∧
     (algorithmSelectionStep A g spec r).2.stoppingCondition = r.stoppingCondition ∧
     (algorithmSelectionStep A g spec r).2.tags = r.tags) ∧
    (algorithmSelectionStep A g spec r).2.algorithmSpecification.metricDefinitions =
      r.algorithmSpecification.metricDefinitions := by
  obtain ⟨lg, ti, an, h⟩ := algorithmSelectionStep_shape A g spec r
  rw [h]
  simp

theorem algorithmSelectionStep_image (A : List (String × String))
    (g : Option String → String → String) (spec : TrainingInputs) (r : TrainRequest)
    (hi : truthyStr spec.image = true) :
    algorithmSelectionStep A g spec r =
      ([], { r with algorithmSpecification :=
        { r.algorithmSpecification with trainingImage := spec.image, algorithmName := none } }) := by
  unfold algorithmSelectionStep
  rw [if_pos hi]

theorem algorithmSelectionStep_found_key (A : List (String × String))
    (g : Option String → String → String) (spec : TrainingInputs) (r : TrainRequest)
    (kv : String × String) (hi : truthyStr spec.image = false)
    (hf : List.find? (fun p => p.1 == pyStrip (pyLower (spec.algorithm_name.getD ""))) A = some kv) :
    (algorithmSelectionStep A g spec r).2.algorithmSpecification.trainingImage =
      some (g spec.region kv.2) ∧
    (algorithmSelectionStep A g spec r).2.algorithmSpecification.algorithmName = none := by
  unfold algorithmSelectionStep
  rw [if_neg (by simp [hi])]
  simp only [hf]
  exact ⟨trivial, trivial⟩

theorem algorithmSelectionStep_found_value (A : List (String × String))
    (g : Option String → String → String) (spec : TrainingInputs) (r : TrainRequest)
    (hi : truthyStr spec.image = false)
    (hf : List.find? (fun p => p.1 == pyStrip (pyLower (spec.algorithm_name.getD ""))) A = none)
    (ha : (A.any fun p => p.2 == pyStrip (pyLower (spec.algorithm_name.getD ""))) = true) :
    (algorithmSelectionStep A g spec r).2.algorithmSpecification.trainingImage =
      some (g spec.region (pyStrip (pyLower (spec.algorithm_name.getD "")))) ∧
    (algorithmSelectionStep A g spec r).2.algorithmSpecification.algorithmName = none := by
  unfold algorithmSelectionStep
  rw [if_neg (by simp [hi])]
  simp only [hf, ha, if_true]
  exact ⟨trivial, trivial⟩

theorem algorithmSelectionStep_not_found (A : List (String × String))
    (g : Option String → String → String) (spec : TrainingInputs) (r : TrainRequest)
    (hi : truthyStr spec.image = false)
    (hf : List.find? (fun p => p.1 == pyStrip (pyLower (spec.algorithm_name.getD ""))) A = none)
    (ha : (A.any fun p => p.2 == pyStrip (pyLower (spec.algorithm_name.getD ""))) = false) :
    (algorithmSelectionStep A g spec r).2.algorithmSpecification.algorithmName =
      spec.algorithm_name ∧
    (algorithmSelectionStep A g spec r).2.algorithmSpecification.trainingImage = none := by
  unfold algorithmSelectionStep
  rw [if_neg (by simp [hi])]
  simp only [hf, ha]
  simp

theorem metricDefinitionsStep_frame (spec : TrainingInputs) (r : TrainRequest) :
    (metricDefinitionsStep spec r).trainingJobName = r.trainingJobName ∧
    (metricDefinitionsStep spec r).vpcConfig = r.vpcConfig ∧
    (metricDefinitionsStep spec r).outputDataConfig = r.outputDataConfig ∧
    (metricDefinitionsStep spec r).resourceConfig = r.resourceConfig ∧
    (metricDefinitionsStep spec r).stoppingCondition = r.stoppingCondition ∧
    (metricDefinitionsStep spec r).tags = r.tags ∧
    (metricDefinitionsStep spec r).algorithmSpecification.trainingImage =
      r.algorithmSpecification.trainingImage ∧
    (metricDefinitionsStep spec r).algorithmSpecification.algorithmName =
      r.algorithmSpecification.algorithmName := by
  unfold metricDefinitionsStep
  (repeat' split) <;> simp

theorem metricDefinitionsStep_falsy (spec : TrainingInputs) (r : TrainRequest)
    (h : truthyList spec.metric_definitions = false) :
    (metricDefinitionsStep spec r).algorithmSpecification.metricDefinitions = none := by
  simp [metricDefinitionsStep, h]

theorem vpcConfigStep_frame (spec : TrainingInputs) (r : TrainRequest) :
    (vpcConfigStep spec r).trainingJobName = r.trainingJobName ∧
    (vpcConfigStep spec r).algorithmSpecification = r.algorithmSpecification ∧
    (vpcConfigStep spec r).outputDataConfig = r.outputDataConfig ∧
    (vpcConfigStep spec r).resourceConfig = r.resourceConfig ∧
    (vpcConfigStep spec r).stoppingCondition = r.stoppingCondition ∧
    (vpcConfigStep spec r).tags = r.tags := by
  unfold vpcConfigStep
  (repeat' split) <;> simp

theorem vpcConfigStep_char (spec : TrainingInputs) (r : TrainRequest) :
    (vpcConfigStep spec r).vpcConfig =
      (if truthyStr spec.vpc_security_group_ids && truthyStr spec.vpc_subnets then
        (some ⟨(spec.vpc_security_group_ids.getD "").splitOn ",",
               (spec.vpc_subnets.getD "").splitOn ","⟩)
       else none) := by
  unfold vpcConfigStep
  (repeat' split) <;> simp_all

theorem staticFieldsStep_frame (spec : TrainingInputs) (chans : List Channel)
    (r : TrainRequest) :
    (staticFieldsStep spec chans r).trainingJobName = r.trainingJobName ∧
    (staticFieldsStep spec chans r).algorithmSpecification = r.algorithmSpecification ∧
    (staticFieldsStep spec chans r).vpcConfig = r.vpcConfig ∧
    (staticFieldsStep spec chans r).stoppingCondition = r.stoppingCondition ∧
    (staticFieldsStep spec chans r).tags = r.tags ∧
    (staticFieldsStep spec chans r).inputDataConfig = chans ∧
    (staticFieldsStep spec chans r).outputDataConfig =
      { s3OutputPath := spec.model_artifact_path,
        kmsKeyId := some spec.output_encryption_key } ∧
    (staticFieldsStep spec chans r).resourceConfig =
      { r.resourceConfig with
        instanceType := spec.instance_type,
        volumeKmsKeyId := some spec.resource_encryption_key } := by
  unfold staticFieldsStep
  simp

theorem numericOverridesStep_frame (spec : TrainingInputs) (r : TrainRequest) :
    (numericOverridesStep spec r).trainingJobName = r.trainingJobName ∧
    (numericOverridesStep spec r).algorithmSpecification = r.algorithmSpecification ∧
    (numericOverridesStep spec r).vpcConfig = r.vpcConfig ∧
    (numericOverridesStep spec r).outputDataConfig = r.outputDataConfig ∧
    (numericOverridesStep spec r).inputDataConfig = r.inputDataConfig ∧
    (numericOverridesStep spec r).tags = r.tags ∧
    (numericOverridesStep spec r).resourceConfig.instanceType =
      r.resourceConfig.instanceType ∧
    (numericOverridesStep spec r).resourceConfig.volumeKmsKeyId =
      r.resourceConfig.volumeKmsKeyId ∧
    (numericOverridesStep spec r).stoppingCondition.maxWaitTimeInSeconds =
      r.stoppingCondition.maxWaitTimeInSeconds := by
  unfold numericOverridesStep
  simp

theorem numericOverridesStep_char (spec : TrainingInputs) (r : TrainRequest) :
    (numericOverridesStep spec r).resourceConfig.instanceCount =
      (if truthyInt spec.instance_count then spec.instance_count.getD 0
       else r.resourceConfig.instanceCount) ∧
    (numericOverridesStep spec r).resourceConfig.volumeSizeInGB =
      (if truthyInt spec.volume_size then spec.volume_size.getD 0
       else r.resourceConfig.volumeSizeInGB) ∧
    (numericOverridesStep spec r).stoppingCondition.maxRuntimeInSeconds =
      (if truthyInt spec.max_run_time then spec.max_run_time.getD 0
       else r.stoppingCondition.maxRuntimeInSeconds) := by
  unfold numericOverridesStep
  simp

theorem spot_ok_frame (r r' : TrainRequest) (spec : TrainingInputs)
    (h : _enable_spot_instance_support r spec = .ok r') :
    r'.trainingJobName = r.trainingJobName ∧
    r'.algorithmSpecification = r.algorithmSpecification ∧
    r'.vpcConfig = r.vpcConfig ∧
    r'.inputDataConfig = r.inputDataConfig ∧
    r'.outputDataConfig = r.outputDataConfig ∧
    r'.resourceConfig = r.resourceConfig ∧
    r'.tags = r.tags ∧
    r'.stoppingCondition.maxRuntimeInSeconds =
      r.stoppingCondition.maxRuntimeInSeconds := by
  unfold _enable_spot_instance_support at h
  revert h
  (repeat' split) <;> intro h <;> first
    | exact Except.noConfusion h
    | (cases Except.ok.inj h; simp)

theorem tagsStep_frame (spec : TrainingInputs) (r : TrainRequest) :
    (tagsStep spec r).trainingJobName = r.trainingJobName ∧
    (tagsStep spec r).algorithmSpecification = r.algorithmSpecification ∧
    (tagsStep spec r).vpcConfig = r.vpcConfig ∧
    (tagsStep spec r).inputDataConfig = r.inputDataConfig ∧
    (tagsStep spec r).outputDataConfig = r.outputDataConfig ∧
    (tagsStep spec r).resourceConfig = r.resourceConfig ∧
    (tagsStep spec r).stoppingCondition = r.stoppingCondition := by
  unfold tagsStep
  by_cases h : (spec.tags.getD []).isEmpty = true <;> simp [h]

theorem tagsStep_empty (spec : TrainingInputs) (r : TrainRequest)
    (h : (spec.tags.getD []).isEmpty = true) :
    (tagsStep spec r).tags = r.tags := by
  simp [tagsStep, h]

theorem truthyStr_isSome (o : Option String) (h : truthyStr o = true) :
    o.isSome = true := by
  cases o with
  | none => simp [truthyStr] at h
  | some s => rfl

theorem metricDefinitionsStep_char (spec : TrainingInputs) (r : TrainRequest) :
    (metricDefinitionsStep spec r).algorithmSpecification.metricDefinitions =
      (if truthyList spec.metric_definitions then
        some ((r.algorithmSpecification.metricDefinitions.getD []) ++
          (spec.metric_definitions.getD []).map (fun kv => ⟨kv.1, kv.2⟩))
       else none) := by
  unfold metricDefinitionsStep
  by_cases h : truthyList spec.metric_definitions = true <;> simp [h]

theorem tagsStep_tags (spec : TrainingInputs) (r : TrainRequest) :
    (tagsStep spec r).tags =
      (if (spec.tags.getD []).isEmpty then r.tags
       else some ((r.tags.getD []) ++ spec.tags.getD [])) := by
  unfold tagsStep
  by_cases h : (spec.tags.getD []).isEmpty = true <;> simp [h]

theorem algorithmSelectionStep_logs (A : List (String × String))
    (g : Option String → String → String) (spec : TrainingInputs) (r : TrainRequest) :
    (algorithmSelectionStep A g spec r).1 = [] ∨
    (algorithmSelectionStep A g spec r).1 =
      [⟨.warning, "Algorithm name is found as an Amazon built-in algorithm. Using built-in algorithm."⟩] := by
  unfold algorithmSelectionStep
  by_cases hi : truthyStr spec.image = true
  · rw [if_pos hi]; exact Or.inl rfl
  · rw [if_neg hi]
    cases hf : List.find? (fun kv => kv.1 == pyStrip (pyLower (spec.algorithm_name.getD ""))) A with
    | some kv => simp only [hf]; exact Or.inr trivial
    | none =>
      simp only [hf]
      by_cases ha : (A.any fun kv => kv.2 == pyStrip (pyLower (spec.algorithm_name.getD ""))) = true
      · rw [if_pos ha]; exact Or.inr rfl
      · rw [if_neg ha]; exact Or.inl rfl

theorem build_neither (template : TrainRequest)
    (chp : Option (List (String × String)) → List (String × String))
    (algos : List (String × String)) (giu : Option String → String → String)
    (name : String) (spec : TrainingInputs)
    (h1 : truthyStr spec.image = false) (h2 : truthyStr spec.algorithm_name = false) :
    _create_job_request template chp algos giu name spec =
      ([⟨.error, "Please specify training image or algorithm name."⟩],
       .error (.exception "Could not create job request")) := by
  unfold _create_job_request
  rw [if_pos (by simp [h1, h2])]

theorem build_channels_none (template : TrainRequest)
    (chp : Option (List (String × String)) → List (String × String))
    (algos : List (String × String)) (giu : Option String → String → String)
    (name : String) (spec : TrainingInputs)
    (hor : (truthyStr spec.image || truthyStr spec.algorithm_name) = true)
    (hc : spec.channels = none) :
    (_create_job_request template chp algos giu name spec).2 =
      .error (.typeError "object of type NoneType has no len()") := by
  unfold _create_job_request
  rw [if_neg (by revert hor; cases truthyStr spec.image <;> cases truthyStr spec.algorithm_name <;> simp)]
  simp [hc]

theorem build_channels_empty (template : TrainRequest)
    (chp : Option (List (String × String)) → List (String × String))
    (algos : List (String × String)) (giu : Option String → String → String)
    (name : String) (spec : TrainingInputs)
    (hc : spec.channels = some []) :
    (_create_job_request template chp algos giu name spec).2 =
      .error (.exception "Could not create job request") := by
  unfold _create_job_request
  by_cases h1 : (!truthyStr spec.image && !truthyStr spec.algorithm_name) = true
  · rw [if_pos h1]
  · rw [if_neg h1]; simp [hc]

theorem algSel_trainingJobName (A : List (String × String))
    (g : Option String → String → String) (spec : TrainingInputs) (r : TrainRequest) :
    (algorithmSelectionStep A g spec r).2.trainingJobName = r.trainingJobName :=
  (algorithmSelectionStep_frame A g spec r).1.1

theorem algSel_vpcConfig (A : List (String × String))
    (g : Option String → String → String) (spec : TrainingInputs) (r : TrainRequest) :
    (algorithmSelectionStep A g spec r).2.vpcConfig = r.vpcConfig :=
  (algorithmSelectionStep_frame A g spec r).1.2.1

theorem algSel_outputDataConfig (A : List (String × String))
    (g : Option String → String → String) (spec : TrainingInputs) (r : TrainRequest) :
    (algorithmSelectionStep A g spec r).2.outputDataConfig = r.outputDataConfig :=
  (algorithmSelectionStep_frame A g spec r).1.2.2.1

theorem algSel_resourceConfig (A : List (String × String))
    (g : Option String → String → String) (spec : TrainingInputs) (r : TrainRequest) :
    (algorithmSelectionStep A g spec r).2.resourceConfig = r.resourceConfig :=
  (algorithmSelectionStep_frame A g spec r).1.2.2.2.1

theorem algSel_stoppingCondition (A : List (String × String))
    (g : Option String → String → String) (spec : TrainingInputs) (r : TrainRequest) :
    (algorithmSelectionStep A g spec r).2.stoppingCondition = r.stoppingCondition :=
  (algorithmSelectionStep_frame A g spec r).1.2.2.2.2.1

theorem algSel_tags (A : List (String × String))
    (g : Option String → String → String) (spec : TrainingInputs) (r : TrainRequest) :
    (algorithmSelectionStep A g spec r).2.tags = r.tags :=
  (algorithmSelectionStep_frame A g spec r).1.2.2.2.2.2

theorem algSel_metricDefinitions (A : List (String × String))
    (g : Option String → String → String) (spec : TrainingInputs) (r : TrainRequest) :
    (algorithmSelectionStep A g spec r).2.algorithmSpecification.metricDefinitions =
      r.algorithmSpecification.metricDefinitions :=
  (algorithmSelectionStep_frame A g spec r).2

theorem md_trainingJobName (spec : TrainingInputs) (r : TrainRequest) :
    (metricDefinitionsStep spec r).trainingJobName = r.trainingJobName :=
  (metricDefinitionsStep_frame spec r).1

theorem md_vpcConfig (spec : TrainingInputs) (r : TrainRequest) :
    (metricDefinitionsStep spec r).vpcConfig = r.vpcConfig :=
  (metricDefinitionsStep_frame spec r).2.1

theorem md_outputDataConfig (spec : TrainingInputs) (r : TrainRequest) :
    (metricDefinitionsStep spec r).outputDataConfig = r.outputDataConfig :=
  (metricDefinitionsStep_frame spec r).2.2.1

theorem md_resourceConfig (spec : TrainingInputs) (r : TrainRequest) :
    (metricDefinitionsStep spec r).resourceConfig = r.resourceConfig :=
  (metricDefinitionsStep_frame spec r).2.2.2.1

theorem md_stoppingCondition (spec : TrainingInputs) (r : TrainRequest) :
    (metricDefinitionsStep spec r).stoppingCondition = r.stoppingCondition :=
  (metricDefinitionsStep_frame spec r).2.2.2.2.1

theorem md_tags (spec : TrainingInputs) (r : TrainRequest) :
    (metricDefinitionsStep spec r).tags = r.tags :=
  (metricDefinitionsStep_frame spec r).2.2.2.2.2.1

theorem md_trainingImage (spec : TrainingInputs) (r : TrainRequest) :
    (metricDefinitionsStep spec r).algorithmSpecification.trainingImage =
      r.algorithmSpecification.trainingImage :=
  (metricDefinitionsStep_frame spec r).2.2.2.2.2.2.1

theorem md_algorithmName (spec : TrainingInputs) (r : TrainRequest) :
    (metricDefinitionsStep spec r).algorithmSpecification.algorithmName =
      r.algorithmSpecification.algorithmName :=
  (metricDefinitionsStep_frame spec r).2.2.2.2.2.2.2

theorem vpcStep_trainingJobName (spec : TrainingInputs) (r : TrainRequest) :
    (vpcConfigStep spec r).trainingJobName = r.trainingJobName :=
  (vpcConfigStep_frame spec r).1

theorem vpcStep_algorithmSpecification (spec : TrainingInputs) (r : TrainRequest) :
    (vpcConfigStep spec r).algorithmSpecification = r.algorithmSpecification :=
  (vpcConfigStep_frame spec r).2.1

theorem vpcStep_outputDataConfig (spec : TrainingInputs) (r : TrainRequest) :
    (vpcConfigStep spec r).outputDataConfig = r.outputDataConfig :=
  (vpcConfigStep_frame spec r).2.2.1

theorem vpcStep_resourceConfig (spec : TrainingInputs) (r : TrainRequest) :
    (vpcConfigStep spec r).resourceConfig = r.resourceConfig :=
  (vpcConfigStep_frame spec r).2.2.2.1

theorem vpcStep_stoppingCondition (spec : TrainingInputs) (r : TrainRequest) :
    (vpcConfigStep spec r).stoppingCondition = r.stoppingCondition :=
  (vpcConfigStep_frame spec r).2.2.2.2.1

theorem vpcStep_tags (spec : TrainingInputs) (r : TrainRequest) :
    (vpcConfigStep spec r).tags = r.tags :=
  (vpcConfigStep_frame spec r).2.2.2.2.2

theorem static_trainingJobName (spec : TrainingInputs) (chans : List Channel)
    (r : TrainRequest) :
    (staticFieldsStep spec chans r).trainingJobName = r.trainingJobName :=
  (staticFieldsStep_frame spec chans r).1

theorem static_algorithmSpecification (spec : TrainingInputs) (chans : List Channel)
    (r : TrainRequest) :
    (staticFieldsStep spec chans r).algorithmSpecification = r.algorithmSpecification :=
  (staticFieldsStep_frame spec chans r).2.1

theorem static_vpcConfig (spec : TrainingInputs) (chans : List Channel)
    (r : TrainRequest) :
    (staticFieldsStep spec chans r).vpcConfig = r.vpcConfig :=
  (staticFieldsStep_frame spec chans r).2.2.1

theorem static_stoppingCondition (spec : TrainingInputs) (chans : List Channel)
    (r : TrainRequest) :
    (staticFieldsStep spec chans r).stoppingCondition = r.stoppingCondition :=
  (staticFieldsStep_frame spec chans r).2.2.2.1

theorem static_tags (spec : TrainingInputs) (chans : List Channel)
    (r : TrainRequest) :
    (staticFieldsStep spec chans r).tags = r.tags :=
  (staticFieldsStep_frame spec chans r).2.2.2.2.1

theorem static_inputDataConfig (spec : TrainingInputs) (chans : List Channel)
    (r : TrainRequest) :
    (staticFieldsStep spec chans r).inputDataConfig = chans :=
  (staticFieldsStep_frame spec chans r).2.2.2.2.2.1

theorem static_outputDataConfig (spec : TrainingInputs) (chans : List Channel)
    (r : TrainRequest) :
    (staticFieldsStep spec chans r).outputDataConfig =
      { s3OutputPath := spec.model_artifact_path,
        kmsKeyId := some spec.output_encryption_key } :=
  (staticFieldsStep_frame spec chans r).2.2.2.2.2.2.1

theorem static_resourceConfig (spec : TrainingInputs) (chans : List Channel)
    (r : TrainRequest) :
    (staticFieldsStep spec chans r).resourceConfig =
      { r.resourceConfig with
        instanceType := spec.instance_type,
        volumeKmsKeyId := some spec.resource_encryption_key } :=
  (staticFieldsStep_frame spec chans r).2.2.2.2.2.2.2

theorem numeric_trainingJobName (spec : TrainingInputs) (r : TrainRequest) :
    (numericOverridesStep spec r).trainingJobName = r.trainingJobName :=
  (numericOverridesStep_frame spec r).1

theorem numeric_algorithmSpecification (spec : TrainingInputs) (r : TrainRequest) :
    (numericOverridesStep spec r).algorithmSpecification = r.algorithmSpecification :=
  (numericOverridesStep_frame spec r).2.1

theorem numeric_vpcConfig (spec : TrainingInputs) (r : TrainRequest) :
    (numericOverridesStep spec r).vpcConfig = r.vpcConfig :=
  (numericOverridesStep_frame spec r).2.2.1

theorem numeric_outputDataConfig (spec : TrainingInputs) (r : TrainRequest) :
    (numericOverridesStep spec r).outputDataConfig = r.outputDataConfig :=
  (numericOverridesStep_frame spec r).2.2.2.1

theorem numeric_inputDataConfig (spec : TrainingInputs) (r : TrainRequest) :
    (numericOverridesStep spec r).inputDataConfig = r.inputDataConfig :=
  (numericOverridesStep_frame spec r).2.2.2.2.1

theorem numeric_tags (spec : TrainingInputs) (r : TrainRequest) :
    (numericOverridesStep spec r).tags = r.tags :=
  (numericOverridesStep_frame spec r).2.2.2.2.2.1

theorem numeric_instanceType (spec : TrainingInputs) (r : TrainRequest) :
    (numericOverridesStep spec r).resourceConfig.instanceType =
      r.resourceConfig.instanceType :=
  (numericOverridesStep_frame spec r).2.2.2.2.2.2.1

theorem numeric_volumeKmsKeyId (spec : TrainingInputs) (r : TrainRequest) :
    (numericOverridesStep spec r).resourceConfig.volumeKmsKeyId =
      r.resourceConfig.volumeKmsKeyId :=
  (numericOverridesStep_frame spec r).2.2.2.2.2.2.2.1

theorem numeric_instanceCount (spec : TrainingInputs) (r : TrainRequest) :
    (numericOverridesStep spec r).resourceConfig.instanceCount =
      (if truthyInt spec.instance_count then spec.instance_count.getD 0
       else r.resourceConfig.instanceCount) :=
  (numericOverridesStep_char spec r).1

theorem numeric_volumeSizeInGB (spec : TrainingInputs) (r : TrainRequest) :
    (numericOverridesStep spec r).resourceConfig.volumeSizeInGB =
      (if truthyInt spec.volume_size then spec.volume_size.getD 0
       else r.resourceConfig.volumeSizeInGB) :=
  (numericOverridesStep_char spec r).2.1

theorem numeric_maxRuntime (spec : TrainingInputs) (r : TrainRequest) :
    (numericOverridesStep spec r).stoppingCondition.maxRuntimeInSeconds =
      (if truthyInt spec.max_run_time then spec.max_run_time.getD 0
       else r.stoppingCondition.maxRuntimeInSeconds) :=
  (numericOverridesStep_char spec r).2.2

theorem tags_trainingJobName (spec : TrainingInputs) (r : TrainRequest) :
    (tagsStep spec r).trainingJobName = r.trainingJobName :=
  (tagsStep_frame spec r).1

theorem tags_algorithmSpecification (spec : TrainingInputs) (r : TrainRequest) :
    (tagsStep spec r).algorithmSpecification = r.algorithmSpecification :=
  (tagsStep_frame spec r).2.1

theorem tags_vpcConfig (spec : TrainingInputs) (r : TrainRequest) :
    (tagsStep spec r).vpcConfig = r.vpcConfig :=
  (tagsStep_frame spec r).2.2.1

theorem tags_inputDataConfig (spec : TrainingInputs) (r : TrainRequest) :
    (tagsStep spec r).inputDataConfig = r.inputDataConfig :=
  (tagsStep_frame spec r).2.2.2.1

theorem tags_outputDataConfig (spec : TrainingInputs) (r : TrainRequest) :
    (tagsStep spec r).outputDataConfig = r.outputDataConfig :=
  (tagsStep_frame spec r).2.2.2.2.1

theorem tags_resourceConfig (spec : TrainingInputs) (r : TrainRequest) :
    (tagsStep spec r).resourceConfig = r.resourceConfig :=
  (tagsStep_frame spec r).2.2.2.2.2.1

theorem tags_stoppingCondition (spec : TrainingInputs) (r : TrainRequest) :
    (tagsStep spec r).stoppingCondition = r.stoppingCondition :=
  (tagsStep_frame spec r).2.2.2.2.2.2

theorem algorithmSelectionStep_xor (A : List (String × String))
    (g : Option String → String → String) (spec : TrainingInputs) (r : TrainRequest)
    (hor : (truthyStr spec.image || truthyStr spec.algorithm_name) = true) :
    ((algorithmSelectionStep A g spec r).2.algorithmSpecification.trainingImage.isSome ^^
     (algorithmSelectionStep A g spec r).2.algorithmSpecification.algorithmName.isSome) = true := by
  by_cases hi : truthyStr spec.image = true
  · rw [algorithmSelectionStep_image A g spec r hi]
    have hsome := truthyStr_isSome _ hi
    simp [hsome]
  · have hi' : truthyStr spec.image = false := by simpa using hi
    have ha : truthyStr spec.algorithm_name = true := by
      revert hor; simp [hi']
    cases hf : List.find? (fun p => p.1 == pyStrip (pyLower (spec.algorithm_name.getD ""))) A with
    | some kv =>
      obtain ⟨h1, h2⟩ := algorithmSelectionStep_found_key A g spec r kv hi' hf
      simp [h1, h2]
    | none =>
      by_cases hv : (A.any fun p => p.2 == pyStrip (pyLower (spec.algorithm_name.getD ""))) = true
      · obtain ⟨h1, h2⟩ := algorithmSelectionStep_found_value A g spec r hi' hf hv
        simp [h1, h2]
      · obtain ⟨h1, h2⟩ := algorithmSelectionStep_not_found A g spec r hi' hf
          (by simpa only [Bool.not_eq_true] using hv)
        have hsome := truthyStr_isSome _ ha
        simp [h1, h2, hsome]

theorem build_logs_shape (template : TrainRequest)
    (chp : Option (List (String × String)) → List (String × String))
    (algos : List (String × String)) (giu : Option String → String → String)
    (name : String) (spec : TrainingInputs)
    (h1 : ¬(!truthyStr spec.image && !truthyStr spec.algorithm_name) = true) :
    (_create_job_request template chp algos giu name spec).1 =
      (if truthyStr spec.image && truthyStr spec.algorithm_name then
        [⟨.error, "Both image and algorithm name inputted, only one should be specified. Proceeding with image."⟩]
       else []) ++
      (algorithmSelectionStep algos giu spec (initRequestStep template chp name spec)).1 ++
      (if spec.channels = some [] then
        [⟨.error, "Must specify at least one input channel."⟩]
       else []) := by
  unfold _create_job_request
  rw [if_neg h1]
  cases hc : spec.channels with
  | none => simp [hc]
  | some chans =>
    by_cases hlen : chans.length > 0
    · have hne : ¬(chans = []) := by
        intro he; rw [he] at hlen; simp at hlen
      simp only [hc, hlen, if_true]
      cases hs : _enable_spot_instance_support
        (numericOverridesStep spec (staticFieldsStep spec chans
          (vpcConfigStep spec (metricDefinitionsStep spec
            (algorithmSelectionStep algos giu spec
              (initRequestStep template chp name spec)).2)))) spec with
      | error e => simp [hs, hne]
      | ok r7 => simp [hs, hne]
    · have he : chans = [] := by
        cases chans with
        | nil => rfl
        | cons a l => simp at hlen
      subst he
      simp [hc]

/-- C1: every successfully built request carries exactly one of
TrainingImage and AlgorithmName, never both and never neither; when the
spec supplies both image and algorithm name, the built request uses the
image and omits AlgorithmName, a non-fatal diagnostic is logged (the code
logs it and raises nothing, so the neither-given validation message is
never emitted on that path); when the spec supplies neither, construction
fails with the validation error and the run makes no submit call. -/
theorem C1_exactly_one_of_image_and_algorithm (template : TrainRequest)
    (chp : Option (List (String × String)) → List (String × String))
    (algos : List (String × String)) (giu : Option String → String → String)
    (name : String) (spec : TrainingInputs) :
    (∀ r, (_create_job_request template chp algos giu name spec).2 = .ok r →
      (r.algorithmSpecification.trainingImage.isSome ^^
       r.algorithmSpecification.algorithmName.isSome) = true) ∧
    (truthyStr spec.image = true → truthyStr spec.algorithm_name = true →
      ((⟨.error, "Both image and algorithm name inputted, only one should be specified. Proceeding with image."⟩ : LogEvent) ∈
        (_create_job_request template chp algos giu name spec).1 ∧
      ((⟨.error, "Please specify training image or algorithm name."⟩ : LogEvent) ∉
        (_create_job_request template chp algos giu name spec).1) ∧
      (∀ r, (_create_job_request template chp algos giu name spec).2 = .ok r →
        r.algorithmSpecification.trainingImage = spec.image ∧
        r.algorithmSpecification.algorithmName = none))) ∧
    (truthyStr spec.image = false → truthyStr spec.algorithm_name = false →
      ((_create_job_request template chp algos giu name spec).2 =
        .error (.exception "Could not create job request") ∧
      ∀ ts, submitCallsOfRun template chp algos giu spec ts = [])) := by
  refine ⟨?_, ?_, ?_⟩
  · intro r h
    obtain ⟨hor, chans, r7, hc, hlen, hs, hr⟩ :=
      build_ok_decomp template chp algos giu name spec r h
    obtain ⟨p1, p2, p3, p4, p5, p6, p7, p8⟩ := spot_ok_frame _ r7 spec hs
    subst hr
    rw [tags_algorithmSpecification, p2, numeric_algorithmSpecification,
        static_algorithmSpecification, vpcStep_algorithmSpecification,
        md_trainingImage, md_algorithmName]
    exact algorithmSelectionStep_xor algos giu spec _ hor
  · intro hi ha
    have h1 : ¬(!truthyStr spec.image && !truthyStr spec.algorithm_name) = true := by
      simp [hi, ha]
    have hlogs := build_logs_shape template chp algos giu name spec h1
    refine ⟨?_, ?_, ?_⟩
    · rw [hlogs]
      simp [hi, ha]
    · rw [hlogs]
      rcases algorithmSelectionStep_logs algos giu spec
          (initRequestStep template chp name spec) with hl | hl <;>
        rw [hl] <;> simp only [hi, ha, Bool.and_self, if_true] <;>
        by_cases hch : spec.channels = some [] <;>
        simp only [hch, if_true, if_false] <;> decide
    · intro r h
      obtain ⟨hor, chans, r7, hc, hlen, hs, hr⟩ :=
        build_ok_decomp template chp algos giu name spec r h
      obtain ⟨p1, p2, p3, p4, p5, p6, p7, p8⟩ := spot_ok_frame _ r7 spec hs
      subst hr
      rw [tags_algorithmSpecification, p2, numeric_algorithmSpecification,
          static_algorithmSpecification, vpcStep_algorithmSpecification,
          md_trainingImage, md_algorithmName,
          algorithmSelectionStep_image algos giu spec _ hi]
      exact ⟨rfl, rfl⟩
  · intro hi ha
    have hb := build_neither template chp algos giu name spec hi ha
    constructor
    · rw [hb]
    · intro ts
      unfold submitCallsOfRun buildForRun
      rw [build_neither template chp algos giu
        (assignTrainingJobName spec.job_name ts) spec hi ha]

theorem initRequest_trainingJobName (template : TrainRequest)
    (chp : Option (List (String × String)) → List (String × String))
    (name : String) (spec : TrainingInputs) :
    (initRequestStep template chp name spec).trainingJobName = name := rfl

theorem initRequest_resourceConfig (template : TrainRequest)
    (chp : Option (List (String × String)) → List (String × String))
    (name : String) (spec : TrainingInputs) :
    (initRequestStep template chp name spec).resourceConfig = template.resourceConfig := rfl

theorem initRequest_stoppingCondition (template : TrainRequest)
    (chp : Option (List (String × String)) → List (String × String))
    (name : String) (spec : TrainingInputs) :
    (initRequestStep template chp name spec).stoppingCondition =
      template.stoppingCondition := rfl

theorem initRequest_tags (template : TrainRequest)
    (chp : Option (List (String × String)) → List (String × String))
    (name : String) (spec : TrainingInputs) :
    (initRequestStep template chp name spec).tags = template.tags := rfl

theorem initRequest_metricDefinitions (template : TrainRequest)
    (chp : Option (List (String × String)) → List (String × String))
    (name : String) (spec : TrainingInputs) :
    (initRequestStep template chp name spec).algorithmSpecification.metricDefinitions =
      template.algorithmSpecification.metricDefinitions := rfl

/-- C2: a spec whose channels list is present but empty fails request
construction with the validation error and the run makes no submit call;
for every spec whose construction succeeds, the request's InputDataConfig
is exactly the non-empty channel list of the spec. -/
theorem C2_at_least_one_channel (template : TrainRequest)
    (chp : Option (List (String × String)) → List (String × String))
    (algos : List (String × String)) (giu : Option String → String → String)
    (name : String) (spec : TrainingInputs) :
    (spec.channels = some [] →
      ((_create_job_request template chp algos giu name spec).2 =
        .error (.exception "Could not create job request") ∧
      ∀ ts, submitCallsOfRun template chp algos giu spec ts = [])) ∧
    (∀ r, (_create_job_request template chp algos giu name spec).2 = .ok r →
      spec.channels = some r.inputDataConfig ∧ 0 < r.inputDataConfig.length) := by
  constructor
  · intro hc
    constructor
    · exact build_channels_empty template chp algos giu name spec hc
    · intro ts
      unfold submitCallsOfRun buildForRun
      rw [build_channels_empty template chp algos giu
        (assignTrainingJobName spec.job_name ts) spec hc]
  · intro r h
    obtain ⟨hor, chans, r7, hc, hlen, hs, hr⟩ :=
      build_ok_decomp template chp algos giu name spec r h
    obtain ⟨p1, p2, p3, p4, p5, p6, p7, p8⟩ := spot_ok_frame _ r7 spec hs
    subst hr
    rw [tags_inputDataConfig, p4, numeric_inputDataConfig, static_inputDataConfig]
    exact ⟨hc, hlen⟩

/-- C3: with only an algorithm name supplied, the builder normalizes it by
lower-casing and stripping, then looks the normalized key up in the
catalog first by name and then by canonical value; if found, the request's
TrainingImage is resolved through `get_image_uri` and AlgorithmName is
dropped; if not found, AlgorithmName is kept exactly as the caller
supplied it (un-normalized) and TrainingImage is dropped. -/
theorem C3_algorithm_name_resolution (template : TrainRequest)
    (chp : Option (List (String × String)) → List (String × String))
    (algos : List (String × String)) (giu : Option String → String → String)
    (name : String) (spec : TrainingInputs)
    (hi : truthyStr spec.image = false) (ha : truthyStr spec.algorithm_name = true) :
    (∀ a b, List.find? (fun p =>
        p.1 == pyStrip (pyLower (spec.algorithm_name.getD ""))) algos = some (a, b) →
      ∀ r, (_create_job_request template chp algos giu name spec).2 = .ok r →
        r.algorithmSpecification.trainingImage = some (giu spec.region b) ∧
        r.algorithmSpecification.algorithmName = none) ∧
    (List.find? (fun p =>
        p.1 == pyStrip (pyLower (spec.algorithm_name.getD ""))) algos = none →
      (algos.any fun p => p.2 == pyStrip (pyLower (spec.algorithm_name.getD ""))) = true →
      ∀ r, (_create_job_request template chp algos giu name spec).2 = .ok r →
        r.algorithmSpecification.trainingImage =
          some (giu spec.region (pyStrip (pyLower (spec.algorithm_name.getD "")))) ∧
        r.algorithmSpecification.algorithmName = none) ∧
    (List.find? (fun p =>
        p.1 == pyStrip (pyLower (spec.algorithm_name.getD ""))) algos = none →
      (algos.any fun p => p.2 == pyStrip (pyLower (spec.algorithm_name.getD ""))) = false →
      ∀ r, (_create_job_request template chp algos giu name spec).2 = .ok r →
        r.algorithmSpecification.algorithmName = spec.algorithm_name ∧
        r.algorithmSpecification.trainingImage = none) := by
  refine ⟨?_, ?_, ?_⟩
  · intro a b hf r h
    obtain ⟨hor, chans, r7, hc, hlen, hs, hr⟩ :=
      build_ok_decomp template chp algos giu name spec r h
    obtain ⟨p1, p2, p3, p4, p5, p6, p7, p8⟩ := spot_ok_frame _ r7 spec hs
    subst hr
    rw [tags_algorithmSpecification, p2, numeric_algorithmSpecification,
        static_algorithmSpecification, vpcStep_algorithmSpecification,
        md_trainingImage, md_algorithmName]
    exact algorithmSelectionStep_found_key algos giu spec _ (a, b) hi hf
  · intro hf hv r h
    obtain ⟨hor, chans, r7, hc, hlen, hs, hr⟩ :=
      build_ok_decomp template chp algos giu name spec r h
    obtain ⟨p1, p2, p3, p4, p5, p6, p7, p8⟩ := spot_ok_frame _ r7 spec hs
    subst hr
    rw [tags_algorithmSpecification, p2, numeric_algorithmSpecification,
        static_algorithmSpecification, vpcStep_algorithmSpecification,
        md_trainingImage, md_algorithmName]
    exact algorithmSelectionStep_found_value algos giu spec _ hi hf hv
  · intro hf hv r h
    obtain ⟨hor, chans, r7, hc, hlen, hs, hr⟩ :=
      build_ok_decomp template chp algos giu name spec r h
    obtain ⟨p1, p2, p3, p4, p5, p6, p7, p8⟩ := spot_ok_frame _ r7 spec hs
    subst hr
    rw [tags_algorithmSpecification, p2, numeric_algorithmSpecification,
        static_algorithmSpecification, vpcStep_algorithmSpecification,
        md_algorithmName, md_trainingImage]
    exact algorithmSelectionStep_not_found algos giu spec _ hi hf hv

/-- C8: each of instance count, volume size and max runtime is taken from
the caller exactly when the input is present and non-zero; when the input
is absent or zero, the built request keeps the template's (service
default) value for that field unchanged. -/
theorem C8_numeric_overrides (template : TrainRequest)
    (chp : Option (List (String × String)) → List (String × String))
    (algos : List (String × String)) (giu : Option String → String → String)
    (name : String) (spec : TrainingInputs) :
    ∀ r, (_create_job_request template chp algos giu name spec).2 = .ok r →
      ((truthyInt spec.instance_count = true →
        r.resourceConfig.instanceCount = spec.instance_count.getD 0) ∧
      (truthyInt spec.instance_count = false →
        r.resourceConfig.instanceCount = template.resourceConfig.instanceCount)) ∧
      ((truthyInt spec.volume_size = true →
        r.resourceConfig.volumeSizeInGB = spec.volume_size.getD 0) ∧
      (truthyInt spec.volume_size = false →
        r.resourceConfig.volumeSizeInGB = template.resourceConfig.volumeSizeInGB)) ∧
      ((truthyInt spec.max_run_time = true →
        r.stoppingCondition.maxRuntimeInSeconds = spec.max_run_time.getD 0) ∧
      (truthyInt spec.max_run_time = false →
        r.stoppingCondition.maxRuntimeInSeconds =
          template.stoppingCondition.maxRuntimeInSeconds)) := by
  intro r h
  obtain ⟨hor, chans, r7, hc, hlen, hs, hr⟩ :=
    build_ok_decomp template chp algos giu name spec r h
  obtain ⟨p1, p2, p3, p4, p5, p6, p7, p8⟩ := spot_ok_frame _ r7 spec hs
  subst hr
  have hcount : (tagsStep spec r7).resourceConfig.instanceCount =
      (if truthyInt spec.instance_count then spec.instance_count.getD 0
       else template.resourceConfig.instanceCount) := by
    simp only [tags_resourceConfig, p6, numeric_instanceCount, static_resourceConfig,
      vpcStep_resourceConfig, md_resourceConfig, algSel_resourceConfig,
      initRequest_resourceConfig]
  have hvol : (tagsStep spec r7).resourceConfig.volumeSizeInGB =
      (if truthyInt spec.volume_size then spec.volume_size.getD 0
       else template.resourceConfig.volumeSizeInGB) := by
    simp only [tags_resourceConfig, p6, numeric_volumeSizeInGB, static_resourceConfig,
      vpcStep_resourceConfig, md_resourceConfig, algSel_resourceConfig,
      initRequest_resourceConfig]
  have hrun : (tagsStep spec r7).stoppingCondition.maxRuntimeInSeconds =
      (if truthyInt spec.max_run_time then spec.max_run_time.getD 0
       else template.stoppingCondition.maxRuntimeInSeconds) := by
    simp only [tags_stoppingCondition, p8, numeric_maxRuntime, static_stoppingCondition,
      vpcStep_stoppingCondition, md_stoppingCondition, algSel_stoppingCondition,
      initRequest_stoppingCondition]
  refine ⟨⟨fun ht => ?_, fun ht => ?_⟩, ⟨fun ht => ?_, fun ht => ?_⟩,
    ⟨fun ht => ?_, fun ht => ?_⟩⟩ <;>
    simp [hcount, hvol, hrun, ht]

/-- C9: an explicit non-empty job name is used verbatim as the run's job
identity and appears unchanged in the built request; with no (truthy) name
the identity is generated as TrainingJob-<timestamp>, and two invocations
with distinct clock readings receive distinct generated names; the one
identity assigned at the start of the run is the one the built request
carries. -/
theorem C9_job_identity (template : TrainRequest)
    (chp : Option (List (String × String)) → List (String × String))
    (algos : List (String × String)) (giu : Option String → String → String)
    (spec : TrainingInputs) (t t1 t2 : String) :
    (∀ n, n ≠ "" → spec.job_name = some n →
      assignTrainingJobName spec.job_name t = n) ∧
    (truthyStr spec.job_name = false →
      assignTrainingJobName spec.job_name t = "TrainingJob-" ++ t) ∧
    (t1 ≠ t2 →
      assignTrainingJobName none t1 ≠ assignTrainingJobName none t2) ∧
    (∀ r, (buildForRun template chp algos giu spec t).2 = .ok r →
      r.trainingJobName = assignTrainingJobName spec.job_name t) := by
  refine ⟨?_, ?_, ?_, ?_⟩
  · intro n hn hjn
    unfold assignTrainingJobName
    rw [hjn]
    rw [if_pos (by simp [truthyStr, hn])]
    rfl
  · intro hf
    unfold assignTrainingJobName
    rw [if_neg (by simp [hf])]
    rfl
  · intro hne heq
    unfold assignTrainingJobName _generate_unique_timestamped_id at heq
    simp only [truthyStr, if_neg] at heq
    apply hne
    have hd : ("TrainingJob-").data ++ t1.data = ("TrainingJob-").data ++ t2.data := by
      have h2 := congrArg String.data heq
      simpa using h2
    have hbc : t1.data = t2.data := List.append_cancel_left hd
    cases t1; cases t2
    exact congrArg String.mk hbc
  · intro r h
    unfold buildForRun at h
    obtain ⟨hor, chans, r7, hc, hlen, hs, hr⟩ :=
      build_ok_decomp template chp algos giu (assignTrainingJobName spec.job_name t) spec r h
    obtain ⟨p1, p2, p3, p4, p5, p6, p7, p8⟩ := spot_ok_frame _ r7 spec hs
    subst hr
    rw [tags_trainingJobName, p1, numeric_trainingJobName, static_trainingJobName,
        vpcStep_trainingJobName, md_trainingJobName, algSel_trainingJobName,
        initRequest_trainingJobName]

/-- C6 (amended): of the optional blocks, only VPC configuration and
metric definitions are omitted when their sub-fields are missing (a spec
missing either VPC sub-field yields a request with no VpcConfig at all,
and no metric definitions yields no MetricDefinitions key); the
encryption-key entries are always written into the request — as null
values when the inputs are absent — and the Tags list always stays in the
request, keeping the template's (possibly empty) list when the caller
supplies no tags. -/
theorem C6_optional_blocks_amended (template : TrainRequest)
    (chp : Option (List (String × String)) → List (String × String))
    (algos : List (String × String)) (giu : Option String → String → String)
    (name : String) (spec : TrainingInputs) :
    ∀ r, (_create_job_request template chp algos giu name spec).2 = .ok r →
      ((truthyStr spec.vpc_security_group_ids && truthyStr spec.vpc_subnets) = false →
        r.vpcConfig = none) ∧
      ((truthyStr spec.vpc_security_group_ids && truthyStr spec.vpc_subnets) = true →
        r.vpcConfig =
          some ⟨(spec.vpc_security_group_ids.getD "").splitOn ",",
                (spec.vpc_subnets.getD "").splitOn ","⟩) ∧
      (truthyList spec.metric_definitions = false →
        r.algorithmSpecification.metricDefinitions = none) ∧
      r.outputDataConfig.kmsKeyId = some spec.output_encryption_key ∧
      r.resourceConfig.volumeKmsKeyId = some spec.resource_encryption_key ∧
      ((spec.tags.getD []).isEmpty = true → r.tags = template.tags) := by
  intro r h
  obtain ⟨hor, chans, r7, hc, hlen, hs, hr⟩ :=
    build_ok_decomp template chp algos giu name spec r h
  obtain ⟨p1, p2, p3, p4, p5, p6, p7, p8⟩ := spot_ok_frame _ r7 spec hs
  subst hr
  have hvpc : (tagsStep spec r7).vpcConfig =
      (if truthyStr spec.vpc_security_group_ids && truthyStr spec.vpc_subnets then
        (some ⟨(spec.vpc_security_group_ids.getD "").splitOn ",",
               (spec.vpc_subnets.getD "").splitOn ","⟩)
       else none) := by
    simp only [tags_vpcConfig, p3, numeric_vpcConfig, static_vpcConfig,
      vpcConfigStep_char]
  have hmd : truthyList spec.metric_definitions = false →
      (tagsStep spec r7).algorithmSpecification.metricDefinitions = none := by
    intro hf
    rw [tags_algorithmSpecification, p2, numeric_algorithmSpecification,
        static_algorithmSpecification, vpcStep_algorithmSpecification]
    exact metricDefinitionsStep_falsy spec _ hf
  have hkms : (tagsStep spec r7).outputDataConfig.kmsKeyId =
      some spec.output_encryption_key := by
    simp only [tags_outputDataConfig, p5, numeric_outputDataConfig,
      static_outputDataConfig]
  have hvkms : (tagsStep spec r7).resourceConfig.volumeKmsKeyId =
      some spec.resource_encryption_key := by
    simp only [tags_resourceConfig, p6, numeric_volumeKmsKeyId, static_resourceConfig]
  have htags : (spec.tags.getD []).isEmpty = true →
      (tagsStep spec r7).tags = template.tags := by
    intro he
    rw [tagsStep_empty spec r7 he, p7, numeric_tags, static_tags, vpcStep_tags,
        md_tags, algSel_tags, initRequest_tags]
  refine ⟨fun hf => ?_, fun ht => ?_, hmd, hkms, hvkms, htags⟩
  · rw [hvpc, hf]; rfl
  · rw [hvpc, ht]; rfl

/-- C10 (amended): the "must specify at least one input channel"
validation message is emitted only when the channels input is present as
an empty sequence; and for every spec that passes the image/algorithm
validation but whose channels key is entirely absent, construction fails
with the TypeError from taking `len` of a missing value rather than with
the builder's own validation error. -/
theorem C10_channels_missing_amended (template : TrainRequest)
    (chp : Option (List (String × String)) → List (String × String))
    (algos : List (String × String)) (giu : Option String → String → String)
    (name : String) (spec : TrainingInputs) :
    ((⟨.error, "Must specify at least one input channel."⟩ : LogEvent) ∈
        (_create_job_request template chp algos giu name spec).1 →
      spec.channels = some []) ∧
    (spec.channels = none →
      (truthyStr spec.image || truthyStr spec.algorithm_name) = true →
      (_create_job_request template chp algos giu name spec).2 =
        .error (.typeError "object of type NoneType has no len()")) := by
  constructor
  · intro hmem
    by_cases h1 : (!truthyStr spec.image && !truthyStr spec.algorithm_name) = true
    · have ha : truthyStr spec.image = false := by
        revert h1
        cases truthyStr spec.image <;> cases truthyStr spec.algorithm_name <;> simp
      have hb : truthyStr spec.algorithm_name = false := by
        revert h1
        cases truthyStr spec.image <;> cases truthyStr spec.algorithm_name <;> simp
      rw [build_neither template chp algos giu name spec ha hb] at hmem
      exact absurd hmem (by decide)
    · rw [build_logs_shape template chp algos giu name spec h1] at hmem
      by_cases hch : spec.channels = some []
      · exact hch
      · exfalso
        rcases algorithmSelectionStep_logs algos giu spec
            (initRequestStep template chp name spec) with hl | hl <;>
          rw [hl] at hmem <;>
          by_cases hb : (truthyStr spec.image && truthyStr spec.algorithm_name) = true <;>
          simp only [hb, hch, if_true, if_false, Bool.false_eq_true] at hmem <;>
          revert hmem <;> decide
  · intro hc hor
    exact build_channels_none template chp algos giu name spec hor hc

/-- C4: the status classifier collapses every remote description into
exactly one of three outcomes: status "Completed" gives terminal success,
status "Failed" gives terminal failure carrying FailureReason verbatim,
and every other status string gives the non-terminal running status. -/
theorem C4_status_classifier (response : TrainingJobDescription) :
    (response.trainingJobStatus = "Completed" →
      _get_job_status response = { is_completed := true, has_error := false }) ∧
    (response.trainingJobStatus = "Failed" →
      _get_job_status response =
        { is_completed := true, has_error := true,
          error_message := some response.failureReason }) ∧
    (response.trainingJobStatus ≠ "Completed" →
      response.trainingJobStatus ≠ "Failed" →
      _get_job_status response = { is_completed := false }) := by
  unfold _get_job_status
  refine ⟨fun h => ?_, fun h => ?_, fun h1 h2 => ?_⟩
  · rw [if_pos (by simp [h])]
  · rw [if_neg (by simp [h]), if_pos (by simp [h])]
  · rw [if_neg (by simp [h1]), if_neg (by simp [h2])]

/-- C5 (code bug): the claim says stop and log calls always address the
run's own `self._training_job_name`; the code instead references the
module-level free variable `job_name`, so with no such global the calls
raise NameError, and with a stale global they address the stale name —
never the run's own identity passed here as the second argument. -/
theorem C5_stop_and_logs_use_module_global :
    (_on_job_terminated { job_name := none } "TrainingJob-20201231010203" =
      .nameError "job_name" ∧
     _print_logs_for_job { job_name := none } "TrainingJob-20201231010203" =
      .nameError "job_name") ∧
    (_on_job_terminated { job_name := some "stale-global" } "TrainingJob-20201231010203" =
      .ok (.stopTrainingJob "stale-global") ∧
     _print_logs_for_job { job_name := some "stale-global" } "TrainingJob-20201231010203" =
      .ok (.printCloudwatchLogs "/aws/sagemaker/TrainingJobs" "stale-global")) := by
  decide

/-- C7: on terminal success the outputs mapping is populated with exactly
the run's job name, the model artifact URL from the remote description,
and the resolved training image — the description's image when present,
otherwise the one obtained by one additional `describe_algorithm` lookup
of the description's algorithm name. -/
theorem C7_outputs_on_success (describe : String → TrainingJobDescription)
    (describeAlgorithm : String → String) (training_job_name : String) :
    _after_job_complete describe describeAlgorithm training_job_name [] =
      [("job_name", training_job_name),
       ("model_artifact_url", (describe training_job_name).s3ModelArtifacts),
       ("training_image",
        match (describe training_job_name).trainingImage with
        | some image => image
        | none => describeAlgorithm (describe training_job_name).algorithmName)] := by
  unfold _after_job_complete _get_model_artifacts_from_job _get_image_from_job dictSet
  simp

/-- Witness for C1 at concrete inputs. -/
theorem C1_witness :
    ((⟨.error, "Both image and algorithm name inputted, only one should be specified. Proceeding with image."⟩ : LogEvent) ∈
      (_create_job_request sampleTemplate sampleHyperparameters sampleCatalog
        sampleGetImageUri "TrainingJob-1" specBoth).1) ∧
    ((_create_job_request sampleTemplate sampleHyperparameters sampleCatalog
        sampleGetImageUri "TrainingJob-1" specBoth).2.toOption.map
      (fun r => (r.algorithmSpecification.trainingImage,
                 r.algorithmSpecification.algorithmName))) =
      some (some "my-image", none) ∧
    (_create_job_request sampleTemplate sampleHyperparameters sampleCatalog
        sampleGetImageUri "TrainingJob-1" specNeither).2 =
      .error (.exception "Could not create job request") := by
  refine ⟨?_, ?_, ?_⟩
  · exact ((C1_exactly_one_of_image_and_algorithm sampleTemplate sampleHyperparameters
      sampleCatalog sampleGetImageUri "TrainingJob-1" specBoth).2.1
      (by decide) (by decide)).1
  · have hsome : ((_create_job_request sampleTemplate sampleHyperparameters sampleCatalog
        sampleGetImageUri "TrainingJob-1" specBoth).2).toOption.isSome = true := by decide
    cases hok : (_create_job_request sampleTemplate sampleHyperparameters sampleCatalog
        sampleGetImageUri "TrainingJob-1" specBoth).2 with
    | error e => rw [hok] at hsome; simp [Except.toOption] at hsome
    | ok r =>
      have hr := (((C1_exactly_one_of_image_and_algorithm sampleTemplate
        sampleHyperparameters sampleCatalog sampleGetImageUri "TrainingJob-1"
        specBoth).2.1 (by decide) (by decide)).2.2) r hok
      simp [Except.toOption, hr.1, hr.2, specBoth]
  · exact ((C1_exactly_one_of_image_and_algorithm sampleTemplate sampleHyperparameters
      sampleCatalog sampleGetImageUri "TrainingJob-1" specNeither).2.2
      (by decide) (by decide)).1

/-- Witness for C2 at concrete inputs. -/
theorem C2_witness :
    (_create_job_request sampleTemplate sampleHyperparameters sampleCatalog
        sampleGetImageUri "TrainingJob-1" specEmptyChannels).2 =
      .error (.exception "Could not create job request") ∧
    ((_create_job_request sampleTemplate sampleHyperparameters sampleCatalog
        sampleGetImageUri "TrainingJob-1" specImageOk).2.toOption.map
      (fun r => r.inputDataConfig)) = some ["train-channel"] := by
  constructor
  · exact ((C2_at_least_one_channel sampleTemplate sampleHyperparameters sampleCatalog
      sampleGetImageUri "TrainingJob-1" specEmptyChannels).1 (by decide)).1
  · have hsome : ((_create_job_request sampleTemplate sampleHyperparameters sampleCatalog
        sampleGetImageUri "TrainingJob-1" specImageOk).2).toOption.isSome = true := by
      decide
    cases hok : (_create_job_request sampleTemplate sampleHyperparameters sampleCatalog
        sampleGetImageUri "TrainingJob-1" specImageOk).2 with
    | error e => rw [hok] at hsome; simp [Except.toOption] at hsome
    | ok r =>
      have hr := ((C2_at_least_one_channel sampleTemplate sampleHyperparameters
        sampleCatalog sampleGetImageUri "TrainingJob-1" specImageOk).2 r hok).1
      have hchan : r.inputDataConfig = ["train-channel"] := by
        have : (some ["train-channel"] : Option (List Channel)) = some r.inputDataConfig := hr
        exact (Option.some.inj this).symm
      simp [Except.toOption, hchan]

/-- Witness for C3 at concrete inputs. -/
theorem C3_witness :
    truthyStr specAlgoOk.image = false ∧ truthyStr specAlgoOk.algorithm_name = true ∧
    ((_create_job_request sampleTemplate sampleHyperparameters sampleCatalog
        sampleGetImageUri "TrainingJob-1" specAlgoOk).2.toOption.map
      (fun r => (r.algorithmSpecification.trainingImage,
                 r.algorithmSpecification.algorithmName))) =
      some (some "us-east-1.dkr.ecr.amazonaws.com/xgboost", none) := by
  refine ⟨by decide, by decide, ?_⟩
  have hsome : ((_create_job_request sampleTemplate sampleHyperparameters sampleCatalog
      sampleGetImageUri "TrainingJob-1" specAlgoOk).2).toOption.isSome = true := by
    decide
  cases hok : (_create_job_request sampleTemplate sampleHyperparameters sampleCatalog
      sampleGetImageUri "TrainingJob-1" specAlgoOk).2 with
  | error e => rw [hok] at hsome; simp [Except.toOption] at hsome
  | ok r =>
    have hr := (C3_algorithm_name_resolution sampleTemplate sampleHyperparameters
      sampleCatalog sampleGetImageUri "TrainingJob-1" specAlgoOk
      (by decide) (by decide)).1 "xgboost" "xgboost" (by decide) r hok
    have himg : sampleGetImageUri specAlgoOk.region "xgboost" =
        "us-east-1.dkr.ecr.amazonaws.com/xgboost" := by decide
    simp [Except.toOption, hr.1, hr.2, himg]

/-- Witness for C4 at concrete status strings. -/
theorem C4_witness :
    _get_job_status { trainingJobStatus := "Failed", failureReason := "OutOfMemory" } =
      { is_completed := true, has_error := true, error_message := some "OutOfMemory" } ∧
    _get_job_status { trainingJobStatus := "Completed" } =
      { is_completed := true, has_error := false } ∧
    _get_job_status { trainingJobStatus := "InProgress" } =
      { is_completed := false } := by
  refine ⟨?_, ?_, ?_⟩
  · exact (C4_status_classifier
      { trainingJobStatus := "Failed", failureReason := "OutOfMemory" }).2.1 rfl
  · exact (C4_status_classifier { trainingJobStatus := "Completed" }).1 rfl
  · exact (C4_status_classifier { trainingJobStatus := "InProgress" }).2.2
      (by decide) (by decide)

/-- Counterexample to C6 as stated: with no encryption keys and no tags
supplied, the built request still carries a null KmsKeyId, a null
VolumeKmsKeyId and an empty Tags list instead of omitting those blocks. -/
theorem C6_counterexample :
    specImageOk.output_encryption_key = none ∧
    specImageOk.resource_encryption_key = none ∧
    specImageOk.tags = none ∧
    ((_create_job_request sampleTemplate sampleHyperparameters sampleCatalog
        sampleGetImageUri "TrainingJob-1" specImageOk).2.toOption.map
      (fun r => (r.outputDataConfig.kmsKeyId, r.resourceConfig.volumeKmsKeyId,
                 r.tags))) =
      some (some none, some none, some []) := by decide

/-- Witness for the amended C6 at concrete inputs. -/
theorem C6_witness :
    ((_create_job_request sampleTemplate sampleHyperparameters sampleCatalog
        sampleGetImageUri "TrainingJob-1" specImageOk).2.toOption.map
      (fun r => (r.vpcConfig, r.algorithmSpecification.metricDefinitions,
                 r.outputDataConfig.kmsKeyId, r.resourceConfig.volumeKmsKeyId,
                 r.tags))) =
      some (none, none, some none, some none, some []) := by
  have hsome : ((_create_job_request sampleTemplate sampleHyperparameters sampleCatalog
      sampleGetImageUri "TrainingJob-1" specImageOk).2).toOption.isSome = true := by
    decide
  cases hok : (_create_job_request sampleTemplate sampleHyperparameters sampleCatalog
      sampleGetImageUri "TrainingJob-1" specImageOk).2 with
  | error e => rw [hok] at hsome; simp [Except.toOption] at hsome
  | ok r =>
    have hr := C6_optional_blocks_amended sampleTemplate sampleHyperparameters
      sampleCatalog sampleGetImageUri "TrainingJob-1" specImageOk r hok
    have h1 := hr.1 (by decide)
    have h3 := hr.2.2.1 (by decide)
    have h4 := hr.2.2.2.1
    have h5 := hr.2.2.2.2.1
    have h6 := hr.2.2.2.2.2 (by decide)
    simp [Except.toOption, h1, h3, h4, h5, h6, specImageOk, sampleTemplate]

/-- Witness for C8 at concrete inputs. -/
theorem C8_witness :
    ((_create_job_request sampleTemplate sampleHyperparameters sampleCatalog
        sampleGetImageUri "TrainingJob-1" specNumeric).2.toOption.map
      (fun r => (r.resourceConfig.instanceCount, r.resourceConfig.volumeSizeInGB,
                 r.stoppingCondition.maxRuntimeInSeconds))) =
      some (3, 30, 86400) := by
  have hsome : ((_create_job_request sampleTemplate sampleHyperparameters sampleCatalog
      sampleGetImageUri "TrainingJob-1" specNumeric).2).toOption.isSome = true := by
    decide
  cases hok : (_create_job_request sampleTemplate sampleHyperparameters sampleCatalog
      sampleGetImageUri "TrainingJob-1" specNumeric).2 with
  | error e => rw [hok] at hsome; simp [Except.toOption] at hsome
  | ok r =>
    have hr := C8_numeric_overrides sampleTemplate sampleHyperparameters sampleCatalog
      sampleGetImageUri "TrainingJob-1" specNumeric r hok
    have h1 := hr.1.1 (by decide)
    have h2 := hr.2.1.2 (by decide)
    have h3 := hr.2.2.2 (by decide)
    simp [Except.toOption, h1, h2, h3, specNumeric, sampleTemplate]

/-- Witness for C9 at concrete inputs. -/
theorem C9_witness :
    assignTrainingJobName specNamed.job_name "20201231010203" = "my-training-job" ∧
    assignTrainingJobName none "20201231010203" = "TrainingJob-20201231010203" ∧
    assignTrainingJobName none "20201231010203" ≠ assignTrainingJobName none "20201231010204" ∧
    ((buildForRun sampleTemplate sampleHyperparameters sampleCatalog sampleGetImageUri
        specNamed "20201231010203").2.toOption.map
      (fun r => r.trainingJobName)) = some "my-training-job" := by
  refine ⟨?_, ?_, ?_, ?_⟩
  · exact (C9_job_identity sampleTemplate sampleHyperparameters sampleCatalog
      sampleGetImageUri specNamed "20201231010203" "t1" "t2").1
      "my-training-job" (by decide) rfl
  · exact (C9_job_identity sampleTemplate sampleHyperparameters sampleCatalog
      sampleGetImageUri ({} : TrainingInputs) "20201231010203" "t1" "t2").2.1 (by decide)
  · exact (C9_job_identity sampleTemplate sampleHyperparameters sampleCatalog
      sampleGetImageUri ({} : TrainingInputs) "t" "20201231010203" "20201231010204").2.2.1
      (by decide)
  · have hsome : ((buildForRun sampleTemplate sampleHyperparameters sampleCatalog
        sampleGetImageUri specNamed "20201231010203").2).toOption.isSome = true := by
      decide
    cases hok : (buildForRun sampleTemplate sampleHyperparameters sampleCatalog
        sampleGetImageUri specNamed "20201231010203").2 with
    | error e => rw [hok] at hsome; simp [Except.toOption] at hsome
    | ok r =>
      have hr := (C9_job_identity sampleTemplate sampleHyperparameters sampleCatalog
        sampleGetImageUri specNamed "20201231010203" "t1" "t2").2.2.2 r hok
      simp [Except.toOption, hr]
      decide

/-- Counterexample to C10 as stated: a spec whose channels key is absent
but which also supplies neither image nor algorithm name fails with the
builder's validation exception, not with a TypeError. -/
theorem C10_counterexample :
    specNeither.channels = none ∧
    isTypeErrorResult (_create_job_request sampleTemplate sampleHyperparameters
      sampleCatalog sampleGetImageUri "TrainingJob-1" specNeither).2 = false ∧
    (_create_job_request sampleTemplate sampleHyperparameters sampleCatalog
        sampleGetImageUri "TrainingJob-1" specNeither).2 =
      .error (.exception "Could not create job request") := ⟨rfl, rfl, rfl⟩

/-- Witness for the amended C10 at concrete inputs. -/
theorem C10_witness :
    (_create_job_request sampleTemplate sampleHyperparameters sampleCatalog
        sampleGetImageUri "TrainingJob-1" specNoChannels).2 =
      .error (.typeError "object of type NoneType has no len()") ∧
    ((⟨.error, "Must specify at least one input channel."⟩ : LogEvent) ∈
      (_create_job_request sampleTemplate sampleHyperparameters sampleCatalog
        sampleGetImageUri "TrainingJob-1" specEmptyChannels).1) ∧
    specEmptyChannels.channels = some [] := by
  refine ⟨?_, by decide, ?_⟩
  · exact (C10_channels_missing_amended sampleTemplate sampleHyperparameters
      sampleCatalog sampleGetImageUri "TrainingJob-1" specNoChannels).2 rfl (by decide)
  · exact (C10_channels_missing_amended sampleTemplate sampleHyperparameters
      sampleCatalog sampleGetImageUri "TrainingJob-1" specEmptyChannels).1 (by decide)
